import Mathlib

set_option maxRecDepth 8000

/-!
Shallow embedding of `qcengine/programs/mp2d.py` (MP2D dispersion-correction
harness): the plant → execute → harvest protocol of `run_json`, `mp2d_plant`,
`mp2d_harvest` and `mp2d_coeff_formatter`.

Modelling conventions, stated once:

* Python `Decimal` values (and the decimal literals that `numpy` parses from
  text) are represented exactly by `Dec` (an integer mantissa with a decimal
  shift), so every definition is executable and kernel-reducible.  Binary
  rounding of C doubles is outside the embedding's scope: none of the verified
  properties depend on it.
* Python exceptions are the inductive `MPError`.  The constructors
  `configurationError` and `resultParsingError` correspond to error kinds that
  the specification's taxonomy names but that no code path constructs (the
  `qcengine` exception module has no such classes); they exist so that claims
  phrased with those names can be stated and settled.
* `dashparam.from_arrays` (package `dftd3`, not under `src/`) resolves the
  dispersion level, the coefficient dictionary and the functional-dash label;
  its output is taken as the input record `Info`.  Coefficient values are kept
  as their already-rendered strings: `mp2d_coeff_formatter` interpolates them
  verbatim with no fixed-precision formatting, which is the property at stake.
* `module_driver` (dftd3 runner, not under `src/`) and `provenance_stamp`
  (qcengine extras, not under `src/`) are modelled from the spec where noted:
  the driver sequences plant → external process → harvest, and the stamp is
  the orchestrator's own provenance record.  The external process itself is a
  collaborator: its stdout (as a list of lines) and the contents of the
  requested `mp2d_gradient` output file are inputs (`ProcessOutcome`).
* The diagnostic-text amalgamation at the top of `mp2d_harvest` (stdout plus
  markers plus file contents) only feeds the human-readable `stdout` field of
  the record; no claim touches it and it is not modelled.
-/

/-- Exact decimal number: the value is `num / 10 ^ shift`.  Models a finite
Python `Decimal` and the decimal literals parsed from program output. -/
structure Dec where
  num : Int
  shift : Nat
deriving DecidableEq, Repr

/-- Rational value denoted by a `Dec`. -/
def decVal (d : Dec) : ℚ := (d.num : ℚ) / 10 ^ d.shift

/-- The zero produced by `np.zeros`. -/
def decZero : Dec := ⟨0, 0⟩

/-- One gradient row (x, y, z). -/
abbrev Vec3 := Dec × Dec × Dec

/-- A zero gradient row, as put in place for ghost atoms by `np.zeros`. -/
def zero3 : Vec3 := (decZero, decZero, decZero)

/-- Python exceptions raised (or recorded) by the mp2d module.  The last two
constructors are names from the specification's error taxonomy only: no code
path of `mp2d.py` (or of `qcengine.exceptions`) ever constructs them. -/
inductive MPError where
  | inputError (msg : String)
  | unknownError (msg : String)
  | resourceError (msg : String)
  | keyError (key : String)
  | indexError (msg : String)
  | valueError (msg : String)
  | invalidOperation (msg : String)
  | unboundLocalError (name : String)
  | configurationError (msg : String)
  | resultParsingError (msg : String)
deriving DecidableEq, Repr

/-- The computation driver (qcelemental `DriverEnum`). -/
inductive Driver where
  | energy
  | gradient
  | hessian
deriving DecidableEq, Repr

/-- Order of derivative requested by a driver (`DriverEnum.derivative_int`). -/
def Driver.derivative_int : Driver → Nat
  | .energy => 0
  | .gradient => 1
  | .hessian => 2

/-- String rendering of a driver value inside an f-string. -/
def Driver.render : Driver → String
  | .energy => "energy"
  | .gradient => "gradient"
  | .hessian => "hessian"

/-- Whether the first list is an initial segment of the second. -/
def listPre : List Char → List Char → Bool
  | [], _ => true
  | _ :: _, [] => false
  | p :: ps, c :: cs => p == c && listPre ps cs

/-- Python `re.match(pat, s)` for a pattern without metacharacters: `pat` must
match at the start of `s`. -/
def strStarts (pat s : String) : Bool := listPre pat.data s.data

/-- Substring search over character lists. -/
def listHas (pat : List Char) : List Char → Bool
  | [] => listPre pat []
  | c :: cs => listPre pat (c :: cs) || listHas pat cs

/-- Python `re.search(pat, s)` for a pattern without metacharacters: `pat`
occurs somewhere in `s`. -/
def strHas (s pat : String) : Bool := listHas pat.data s.data

/-- If `p` is an initial segment of `s`, the remainder of `s`. -/
def dropPat : List Char → List Char → Option (List Char)
  | [], s => some s
  | _ :: _, [] => none
  | p :: ps, c :: cs => if p == c then dropPat ps cs else none

/-- Fuel-driven worker for `pyReplace`. -/
def replaceAux (pat rep : List Char) : Nat → List Char → List Char
  | 0, s => s
  | _ + 1, [] => []
  | n + 1, c :: cs =>
    match dropPat pat (c :: cs) with
    | some rest => rep ++ replaceAux pat rep n rest
    | none => c :: replaceAux pat rep n cs

/-- Python `str.replace`: replace every occurrence of `pat` by `rep`
(patterns used by the code are nonempty). -/
def pyReplace (s pat rep : String) : String :=
  String.mk (replaceAux pat.data rep.data s.data.length s.data)

/-- Drop leading whitespace from a character list. -/
def stripL : List Char → List Char
  | [] => []
  | c :: cs => if c.isWhitespace then stripL cs else c :: cs

/-- Python `str.strip`. -/
def pyStrip (s : String) : String :=
  String.mk ((stripL ((stripL s.data).reverse)).reverse)

/-- Python `str.lower` (ASCII content in this program). -/
def pyLower (s : String) : String := String.mk (s.data.map Char.toLower)

/-- Python `str.upper` (ASCII content in this program). -/
def pyUpper (s : String) : String := String.mk (s.data.map Char.toUpper)

/-- Worker for `pySplit`: accumulate the current word (reversed). -/
def pySplitAux : List Char → List Char → List String
  | [], acc => if acc.isEmpty then [] else [String.mk acc.reverse]
  | c :: cs, acc =>
    if c.isWhitespace then
      if acc.isEmpty then pySplitAux cs []
      else String.mk acc.reverse :: pySplitAux cs []
    else pySplitAux cs (c :: acc)

/-- Python `str.split()` with no argument: split on runs of whitespace,
discarding empty fields. -/
def pySplit (s : String) : List String := pySplitAux s.data []

/-- All characters are decimal digits. -/
def allDigits (cs : List Char) : Bool := cs.all Char.isDigit

/-- Numeric value of a digit string. -/
def natOfDigits (cs : List Char) : Nat :=
  cs.foldl (fun n c => 10 * n + (c.toNat - 48)) 0

/-- Split a character list at the first character satisfying `p`:
the part before it, and (if found) the part after it. -/
def breakAt (p : Char → Bool) : List Char → List Char × Option (List Char)
  | [] => ([], none)
  | c :: cs =>
    if p c then ([], some cs)
    else
      let r := breakAt p cs
      (c :: r.1, r.2)

/-- Optional leading sign of a numeric literal. -/
def parseSign : List Char → Int × List Char
  | '+' :: cs => (1, cs)
  | '-' :: cs => (-1, cs)
  | cs => (1, cs)

/-- Mantissa of a decimal literal: sign, integer digits, optional fractional
digits; at least one digit in total (`Decimal` grammar for finite values). -/
def parseMant (cs : List Char) : Option Dec :=
  let s := parseSign cs
  let r := breakAt (fun c => c == '.') s.2
  let ip := r.1
  let fp := (r.2).getD []
  if ip.isEmpty && fp.isEmpty then none
  else if allDigits ip && allDigits fp then
    some ⟨s.1 * (natOfDigits (ip ++ fp) : Int), fp.length⟩
  else none

/-- Exponent part of a decimal literal: optional sign then digits. -/
def parseExp (cs : List Char) : Option Int :=
  let s := parseSign cs
  if s.2.isEmpty then none
  else if allDigits s.2 then some (s.1 * (natOfDigits s.2 : Int)) else none

/-- Apply a power-of-ten exponent to a `Dec`, exactly. -/
def decShift (d : Dec) (e : Int) : Dec :=
  match e with
  | .ofNat n => ⟨d.num * 10 ^ n, d.shift⟩
  | .negSucc n => ⟨d.num, d.shift + (n + 1)⟩

/-- Parse a finite decimal literal (mantissa with optional `e`/`E` exponent).
Models `Decimal(str)` on the finite-number grammar; the special values
`Infinity`/`NaN` never occur in MP2D output and are not modelled. -/
def parseDecChars (cs : List Char) : Option Dec :=
  let r := breakAt (fun c => c == 'e' || c == 'E') cs
  match r.2 with
  | none => parseMant r.1
  | some ecs =>
    match parseMant r.1, parseExp ecs with
    | some m, some e => some (decShift m e)
    | _, _ => none

/-- Parse a decimal literal from a string. -/
def parseDecimal (s : String) : Option Dec := parseDecChars s.data

/-- Post-processing of the matched version line
(`ln.replace('MP2D dispersion correction', '').replace('-', '').strip().lower()`).
Note the replace target spells `dispersion` in lower case while the search
pattern that matched the line has a capital `D`, exactly as in the source. -/
def versionOfLine (ln : String) : String :=
  pyLower (pyStrip (pyReplace (pyReplace ln "MP2D dispersion correction" "") "-" ""))

/-- The stdout scan loop of `mp2d_harvest` (lines 238-244): one `for` pass with
three `elif` arms.  Returns the version (if a version line matched), the energy
(if an energy line matched, last match wins) and whether the
`Atomic Coordinates in Angstroms` line caused a `break`.  An energy line with
fewer than five whitespace-delimited tokens raises `IndexError`; an
unparseable fifth token raises `decimal.InvalidOperation`. -/
def scanLines : List String → Option String → Option Dec →
    Except MPError (Option String × Option Dec × Bool)
  | [], v, e => .ok (v, e, false)
  | ln :: rest, v, e =>
    if strHas ln "MP2D Dispersion correction v" then
      scanLines rest (some (versionOfLine ln)) e
    else if strStarts "   MP2D dispersion correction Eh" ln then
      match (pySplit ln).get? 4 with
      | none => .error (.indexError "list index out of range")
      | some tok =>
        match parseDecimal tok with
        | none => .error (.invalidOperation tok)
        | some q => scanLines rest v (some q)
    else if strStarts "Atomic Coordinates in Angstroms" ln then
      .ok (v, e, true)
    else scanLines rest v e

/-- Parse whitespace-separated decimal literals, all-or-nothing. -/
def parseFloatList : List String → Option (List Dec)
  | [] => some []
  | t :: ts =>
    match parseDecimal t, parseFloatList ts with
    | some d, some ds => some (d :: ds)
    | _, _ => none

/-- Model of `np.fromstring(s, count=count, sep=' ')`: take exactly `count`
whitespace-separated numbers from `s` (any extra content is ignored); fewer
items than requested, or a malformed item, is a `ValueError`. -/
def np_fromstring (s : String) (count : Nat) : Except MPError (List Dec) :=
  if (pySplit s).length < count then
    .error (.valueError "string has fewer items than requested")
  else
    match parseFloatList ((pySplit s).take count) with
    | none => .error (.valueError "malformed numeric literal")
    | some ds => .ok ds

/-- Reshape a flat list into rows of three (`reshape((-1, 3))` on a list whose
length is a multiple of three). -/
def chunk3 : List Dec → List Vec3
  | a :: b :: c :: t => (a, b, c) :: chunk3 t
  | _ => []

/-- Number of real atoms (`np.sum(real)`). -/
def countTrue : List Bool → Nat
  | [] => 0
  | true :: t => countTrue t + 1
  | false :: t => countTrue t

/-- Scatter the per-real-atom gradient rows into a full-atom array:
`fullgrad = np.zeros((full_nat, 3)); fullgrad[ireal, :] = realgrad` with
`ireal = np.argwhere(real)`.  Rows for non-real atoms stay zero; real atoms
receive the parsed rows in order.  (The `true`-with-exhausted-rows case never
arises: the parse takes exactly `3 * countTrue real` values.) -/
def scatterGrad : List Bool → List Vec3 → List Vec3
  | [], _ => []
  | false :: rs, gs => zero3 :: scatterGrad rs gs
  | true :: rs, [] => zero3 :: scatterGrad rs []
  | true :: rs, g :: gs => g :: scatterGrad rs gs

/-- Provenance record. -/
structure Prov where
  creator : String
  routine : String
  version : String
deriving DecidableEq, Repr

/-- A quantity stored in the qcvars map. -/
inductive QCVar where
  | scalar (e : Dec)
  | grad (g : List Vec3)
deriving DecidableEq, Repr

/-- Python dict lookup over an insertion-ordered association list: the value of
the latest insertion of the key wins. -/
def dget {α : Type} (l : List (String × α)) (k : String) : Option α :=
  match l.reverse.find? (fun kv => kv.1 == k) with
  | some kv => some kv.2
  | none => none

/-- The `calcinfo` quantity map built by `mp2d_harvest` (lines 264-274), in
insertion order: energy entries always, a `{qcvkey} ...` entry when the
functional-dash label is nonempty (Python truthiness of `qcvkey`), and the
mirrored gradient entries when a full gradient was assembled. -/
def buildQcvars (qcvkey : String) (ene : Dec) (fullgrad : Option (List Vec3)) :
    List (String × QCVar) :=
  ([("DISPERSION CORRECTION ENERGY", QCVar.scalar ene),
    ("2-BODY DISPERSION CORRECTION ENERGY", QCVar.scalar ene)] ++
   (if qcvkey = "" then []
    else [(qcvkey ++ " DISPERSION CORRECTION ENERGY", QCVar.scalar ene)])) ++
  (match fullgrad with
   | none => []
   | some fg =>
     [("DISPERSION CORRECTION GRADIENT", QCVar.grad fg),
      ("2-BODY DISPERSION CORRECTION GRADIENT", QCVar.grad fg)] ++
     (if qcvkey = "" then []
      else [(qcvkey ++ " DISPERSION CORRECTION GRADIENT", QCVar.grad fg)]))

/-- What the external runner hands back: captured stdout (as its lines) and
the contents of the requested `mp2d_gradient` output file (`none` when the
program did not produce it). -/
structure ProcessOutcome where
  stdout : List String
  mp2d_gradient : Option String
deriving DecidableEq, Repr

/-- Output of `mp2d_harvest`: the qcvars map and the harvester's provenance. -/
structure HarvestResult where
  qcvars : List (String × QCVar)
  provenance : Prov
deriving DecidableEq, Repr

/-- Lines 250-252: when the gradient file is present, parse exactly
`3 * real_nat` numbers and reshape into rows. -/
def parseGradOpt (f : Option String) (real_nat : Nat) :
    Except MPError (Option (List Vec3)) :=
  match f with
  | none => .ok none
  | some s =>
    match np_fromstring s (3 * real_nat) with
    | .error e => .error e
    | .ok vals => .ok (some (chunk3 vals))

/-- Harvest step `mp2d_harvest` (lines 224-290).  Faithful control flow: the `for`/`else`
scan (the `else` raise fires only when the loop exhausts without the
`Atomic Coordinates` break, and is skipped for the one-real-atom gradient
case); gradient-file parsing whenever the file is present; the gradient branch
turning a missing parsed gradient (`NameError` on `realgrad`) into
`UnknownError('Unsuccessful gradient collection.')`; an unassigned `ene` or
`version` local surfacing as `UnboundLocalError` at its first use
(line 265 for `ene`, line 287 for `version`). -/
def mp2d_harvest (driver : Driver) (real : List Bool) (fctldash : String)
    (out : ProcessOutcome) : Except MPError HarvestResult :=
  match scanLines out.stdout none none with
  | .error e => .error e
  | .ok (v, e, broke) =>
    if broke = false ∧ ¬(countTrue real = 1 ∧ driver = Driver.gradient) then
      .error (.unknownError "Unknown issue occured.")
    else
      match parseGradOpt out.mp2d_gradient (countTrue real) with
      | .error err => .error err
      | .ok rg =>
        match (if driver = Driver.gradient then
                 match rg with
                 | none =>
                   Except.error (MPError.unknownError "Unsuccessful gradient collection.")
                 | some g => Except.ok (some (scatterGrad real g))
               else Except.ok none : Except MPError (Option (List Vec3))) with
        | .error err => .error err
        | .ok fullgrad =>
          match e with
          | none => .error (.unboundLocalError "ene")
          | some ene =>
            match v with
            | none => .error (.unboundLocalError "version")
            | some ver =>
              .ok ⟨buildQcvars (pyUpper fctldash) ene fullgrad,
                   ⟨"mp2d", "mp2d_harvest", ver⟩⟩

/-- A single quote character, written escaped. -/
def squo : String := "\x27"

/-- Python rendering of `dict.keys()`, as interpolated by `%` formatting. -/
def dictKeysRepr {α : Type} (d : List (String × α)) : String :=
  "dict_keys([" ++ String.intercalate ", " (d.map (fun kv => squo ++ kv.1 ++ squo)) ++ "])"

/-- The message of the `InputError` raised for an unsupported dispersion
level (line 319-320): note it interpolates the *coefficient dictionary's
keys*, not the set of known levels. -/
def coeffErrMsg {α : Type} (dashlvl : String) (dashcoeff : List (String × α)) : String :=
  "-D correction level " ++ dashlvl ++ " is not available. Choose among " ++
    dictKeysRepr dashcoeff ++ "."

/-- Formatter `mp2d_coeff_formatter` (lines 293-320): for level `dmp2` (after
lower-casing) the five fixed `--KEY=value` arguments, each value interpolated
verbatim; a missing coefficient key is a `KeyError`; any other level raises
`InputError` with `coeffErrMsg`. -/
def mp2d_coeff_formatter (dashlvl : String) (dashcoeff : List (String × String)) :
    Except MPError (List String) :=
  let dl := pyLower dashlvl
  if dl = "dmp2" then
    match dget dashcoeff "a1" with
    | none => .error (.keyError "a1")
    | some a1 =>
      match dget dashcoeff "a2" with
      | none => .error (.keyError "a2")
      | some a2 =>
        match dget dashcoeff "rcut" with
        | none => .error (.keyError "rcut")
        | some rcut =>
          match dget dashcoeff "w" with
          | none => .error (.keyError "w")
          | some w =>
            match dget dashcoeff "s8" with
            | none => .error (.keyError "s8")
            | some s8 =>
              .ok ["--TT_a1=" ++ a1, "--TT_a2=" ++ a2, "--rcut=" ++ rcut,
                   "--w=" ++ w, "--s8=" ++ s8]
  else .error (.inputError (coeffErrMsg dl dashcoeff))

/-- Resolved dispersion parameters: the output of `dashparam.from_arrays`
(package `dftd3`, an external collaborator whose code is not under `src/`),
as stored into `jobrec['extras']['info']`. -/
structure Info where
  dashlevel : String
  dashparams : List (String × String)
  fctldash : String
deriving DecidableEq, Repr

/-- The program-specific execution plan (`modulerec`): input-file names, the
requested output file, and the command line.  The geometry text itself is
produced by `qcelemental.molparse` (external collaborator) and no claim
inspects it, so only the file name is carried. -/
structure ExecutionPlan where
  infiles : List String
  outfiles : List String
  command : List String
deriving DecidableEq, Repr

/-- Planner `mp2d_plant` (lines 142-201): command = program name, geometry file name,
`--gradient` iff the driver is gradient, then the formatted coefficients.  A
formatter failure propagates and no plan (hence no command) is delivered. -/
def mp2d_plant (driver : Driver) (info : Info) : Except MPError ExecutionPlan :=
  let base := if driver = Driver.gradient
    then ["mp2d", "mp2d_geometry", "--gradient"]
    else ["mp2d", "mp2d_geometry"]
  match mp2d_coeff_formatter info.dashlevel info.dashparams with
  | .error e => .error e
  | .ok args => .ok ⟨["mp2d_geometry"], ["mp2d_gradient"], base ++ args⟩

/-- Python exception class name recorded by the generic handler
(`type(exc).__name__`). -/
def errTypeName : MPError → String
  | .inputError _ => "InputError"
  | .unknownError _ => "UnknownError"
  | .resourceError _ => "ResourceError"
  | .keyError _ => "KeyError"
  | .indexError _ => "IndexError"
  | .valueError _ => "ValueError"
  | .invalidOperation _ => "InvalidOperation"
  | .unboundLocalError _ => "UnboundLocalError"
  | .configurationError _ => "ConfigurationError"
  | .resultParsingError _ => "ResultParsingError"

/-- Message payload of an exception. -/
def errPayload : MPError → String
  | .inputError m => m
  | .unknownError m => m
  | .resourceError m => m
  | .keyError m => m
  | .indexError m => m
  | .valueError m => m
  | .invalidOperation m => m
  | .unboundLocalError m => m
  | .configurationError m => m
  | .resultParsingError m => m

/-- Modelled from the spec: `run_json` records the full Python traceback text
(`traceback.format_exception`) as the error message; the traceback machinery
is not under `src/`, so the text is modelled as the exception's class name and
payload. -/
def tracebackText (e : MPError) : String := errTypeName e ++ ": " ++ errPayload e

/-- The `jobrec['error']` record. -/
structure ErrRecord where
  error_type : String
  error_message : String
deriving DecidableEq, Repr

/-- Error record written by the generic `except` handler of `run_json`
(lines 109-115): exception class name and traceback text. -/
def excRecord (e : MPError) : ErrRecord := ⟨errTypeName e, tracebackText e⟩

/-- Modelled from the spec: `provenance_stamp` (qcengine extras, not under
`src/`) returns the orchestrator's own creator/routine/version stamp; its
exact field contents are irrelevant here because the harvester's provenance
overwrites it on every successful run. -/
def provenance_stamp (routine : String) : Prov :=
  ⟨"QCEngine", routine, "unspecified"⟩

/-- The generic computation request, with the dispersion parameters already
resolved (see `Info`) and the molecule reduced to its real-atom mask, the only
molecular datum the harvester consumes. -/
structure JobInput where
  method : String
  driver : Driver
  real : List Bool
  info : Info
deriving DecidableEq, Repr

/-- A failed `run_json` call: the exception that propagates to the caller and
the `jobrec['error']` record written before re-raising. -/
structure RunFailure where
  raised : MPError
  recorded : ErrRecord
deriving DecidableEq, Repr

/-- A successful `run_json` call. -/
structure RunSuccess where
  return_result : QCVar
  return_energy : QCVar
  qcvars : List (String × QCVar)
  provenance : Prov
deriving DecidableEq, Repr

/-- Lines 95-97: strip the `mp2d-` engine-hint from the method name before
parameter resolution. -/
def stripEngineHint (m : String) : String :=
  if strStarts "mp2d-" m then m.drop 5 else m

/-- Message of the `InputError` raised for an unsupported driver
(line 105, an f-string that interpolates the driver). -/
def driverErrMsg (d : Driver) : String :=
  "MP2D valid driver options are " ++ squo ++ "energy" ++ squo ++ " and " ++ squo ++
    "gradient" ++ squo ++ ", not " ++ d.render

/-- The `error_message` stored for an unsupported driver (line 103).  The
source string has no `f` prefix, so the brace expression is NOT interpolated:
this is the literal template text. -/
def driverRecordMsg : String :=
  "MP2D produces max gradient, not \x7bjobrec[\x27driver\x27]\x7d"

/-- Orchestrator `run_json` (lines 81-132).  Modelled from the spec for the glue only:
`module_driver` (dftd3 runner, not under `src/`) sequences
plant → external process → harvest, with the process outcome supplied as
input.  Everything else follows the source: the orchestrator provenance stamp
(overwritten by the harvester on success), the engine-hint strip, the
driver gate with its hand-written error record, the generic handler recording
`excRecord` for any exception from plant/harvest, and the success-path
assembly of `CURRENT ENERGY`, `return_energy` and `return_result`
(plus `CURRENT GRADIENT` for the gradient driver). -/
def runJson (j : JobInput) (out : ProcessOutcome) : Except RunFailure RunSuccess :=
  -- line 92: jobrec provenance := provenance_stamp "run_json.qcengine.programs.mp2d";
  -- overwritten by the harvester's provenance on every success (see C9);
  -- lines 95-97: the engine-hint strip (stripEngineHint) feeds only the
  -- parameter resolution, which is modelled as the `Info` input.
  if j.driver.derivative_int > 1 then
    .error ⟨.inputError (driverErrMsg j.driver), ⟨"input_error", driverRecordMsg⟩⟩
  else
    match mp2d_plant j.driver j.info with
    | .error e => .error ⟨e, excRecord e⟩
    | .ok _plan =>
      match mp2d_harvest j.driver j.real j.info.fctldash out with
      | .error e => .error ⟨e, excRecord e⟩
      | .ok h =>
        match dget h.qcvars "DISPERSION CORRECTION ENERGY" with
        | none =>
          .error ⟨.keyError "DISPERSION CORRECTION ENERGY",
                  excRecord (.keyError "DISPERSION CORRECTION ENERGY")⟩
        | some ene =>
          match j.driver with
          | .energy => .ok ⟨ene, ene, h.qcvars ++ [("CURRENT ENERGY", ene)], h.provenance⟩
          | .gradient =>
            match dget (h.qcvars ++ [("CURRENT ENERGY", ene)]) "DISPERSION CORRECTION GRADIENT" with
            | none =>
              .error ⟨.keyError "DISPERSION CORRECTION GRADIENT",
                      excRecord (.keyError "DISPERSION CORRECTION GRADIENT")⟩
            | some g =>
              .ok ⟨g, ene, (h.qcvars ++ [("CURRENT ENERGY", ene)]) ++ [("CURRENT GRADIENT", g)],
                   h.provenance⟩
          | .hessian =>
            -- unreachable: drivers reaching this point satisfy derivative_int ≤ 1
            .error ⟨.unknownError "unreachable", excRecord (.unknownError "unreachable")⟩

/-- Projection: `return_result` of a successful run. -/
def getReturnResult : Except RunFailure RunSuccess → Option QCVar
  | .ok r => some r.return_result
  | .error _ => none

/-- Projection: `return_energy` of a successful run. -/
def getReturnEnergy : Except RunFailure RunSuccess → Option QCVar
  | .ok r => some r.return_energy
  | .error _ => none

/-- Projection: the recorded `jobrec['error']` of a failed run. -/
def getRecorded : Except RunFailure RunSuccess → Option ErrRecord
  | .error f => some f.recorded
  | .ok _ => none

/-- Whether a result is a raised `ConfigurationError` (the spec's name). -/
def raisedCfgErr {α : Type} : Except MPError α → Bool
  | .error (.configurationError _) => true
  | _ => false

/-- Whether a result is a raised `ResultParsingError` (the spec's name). -/
def raisedParseErr {α : Type} : Except MPError α → Bool
  | .error (.resultParsingError _) => true
  | _ => false
/-- Stock dmp2 coefficient set (values as the strings the command line shows);
resolution itself is external, see `Info`. -/
def stdParams : List (String × String) :=
  [("a1", "0.944"), ("a2", "0.480"), ("rcut", "0.72"), ("w", "0.20"), ("s8", "1.187")]

/-- Stdout for the energy-parsing scenario: a version line, the energy line
under test, and the coordinates line that stops the scan. -/
def c3stdout (ln : String) : List String :=
  ["MP2D Dispersion correction v1.1", ln, "Atomic Coordinates in Angstroms"]

/-- Energy-driver request over a two-real-atom molecule with resolved level
dmp2 and an empty functional-dash label. -/
def c3job : JobInput := ⟨"dmp2", Driver.energy, [true, true], ⟨"dmp2", stdParams, ""⟩⟩

/-- Gradient file contents of the two-atom gradient scenario. -/
def c4gradFile : String := "0.0 0.0 0.01 0.0 0.0 -0.01"

/-- The six parsed gradient numbers of `c4gradFile`. -/
def c4vals : List Dec := [⟨0, 1⟩, ⟨0, 1⟩, ⟨1, 2⟩, ⟨0, 1⟩, ⟨0, 1⟩, ⟨-1, 2⟩]

/-- The two parsed gradient rows of `c4gradFile`. -/
def c4fg : List Vec3 := [(⟨0, 1⟩, ⟨0, 1⟩, ⟨1, 2⟩), (⟨0, 1⟩, ⟨0, 1⟩, ⟨-1, 2⟩)]

/-- Process outcome of the gradient scenario: full stdout plus gradient file. -/
def c4out : ProcessOutcome :=
  ⟨["MP2D Dispersion correction v1.1", "   MP2D dispersion correction Eh -0.001234",
    "Atomic Coordinates in Angstroms"], some c4gradFile⟩

/-- Harvest result of the gradient scenario. -/
def c4res : HarvestResult :=
  ⟨[("DISPERSION CORRECTION ENERGY", QCVar.scalar ⟨-1234, 6⟩),
    ("2-BODY DISPERSION CORRECTION ENERGY", QCVar.scalar ⟨-1234, 6⟩),
    ("DISPERSION CORRECTION GRADIENT", QCVar.grad c4fg),
    ("2-BODY DISPERSION CORRECTION GRADIENT", QCVar.grad c4fg)],
   ⟨"mp2d", "mp2d_harvest", "mp2d dispersion correction v1.1"⟩⟩

/-- Energy-driver request used for the provenance claims. -/
def c9job : JobInput := ⟨"dmp2", Driver.energy, [true, true], ⟨"dmp2", stdParams, ""⟩⟩

/-- Stdout whose version marker line is missing (energy and break lines only). -/
def c9errOut : ProcessOutcome :=
  ⟨["   MP2D dispersion correction Eh -0.001234", "Atomic Coordinates in Angstroms"], none⟩

/-- Stdout with all three marker lines. -/
def c9okOut : ProcessOutcome :=
  ⟨["MP2D Dispersion correction v1.1", "   MP2D dispersion correction Eh -0.001234",
    "Atomic Coordinates in Angstroms"], none⟩

/-- The successful run record for `c9job` on `c9okOut`. -/
def c9okRes : RunSuccess :=
  ⟨QCVar.scalar ⟨-1234, 6⟩, QCVar.scalar ⟨-1234, 6⟩,
   [("DISPERSION CORRECTION ENERGY", QCVar.scalar ⟨-1234, 6⟩),
    ("2-BODY DISPERSION CORRECTION ENERGY", QCVar.scalar ⟨-1234, 6⟩),
    ("CURRENT ENERGY", QCVar.scalar ⟨-1234, 6⟩)],
   ⟨"mp2d", "mp2d_harvest", "mp2d dispersion correction v1.1"⟩⟩

/-- Energy-driver request with a nonempty functional-dash label. -/
def c8job : JobInput := ⟨"dmp2", Driver.energy, [true, true], ⟨"dmp2", stdParams, "dmp2"⟩⟩

/-- The successful run record for `c8job` on `c9okOut`. -/
def c8res : RunSuccess :=
  ⟨QCVar.scalar ⟨-1234, 6⟩, QCVar.scalar ⟨-1234, 6⟩,
   [("DISPERSION CORRECTION ENERGY", QCVar.scalar ⟨-1234, 6⟩),
    ("2-BODY DISPERSION CORRECTION ENERGY", QCVar.scalar ⟨-1234, 6⟩),
    ("DMP2 DISPERSION CORRECTION ENERGY", QCVar.scalar ⟨-1234, 6⟩),
    ("CURRENT ENERGY", QCVar.scalar ⟨-1234, 6⟩)],
   ⟨"mp2d", "mp2d_harvest", "mp2d dispersion correction v1.1"⟩⟩
/-! Helper lemmas. -/

theorem append_long_ne (k pre t : String) (h : t.length < pre.length) : k ++ pre ≠ t := by
  intro he
  have hl := congrArg String.length he
  rw [String.length_append] at hl
  omega

theorem np_fromstring_error (s : String) (count : Nat) (e : MPError)
    (h : np_fromstring s count = .error e) :
    e = .valueError "string has fewer items than requested" ∨
    e = .valueError "malformed numeric literal" := by
  unfold np_fromstring at h
  split at h
  · exact Or.inl (Except.error.inj h).symm
  · split at h
    · exact Or.inr (Except.error.inj h).symm
    · exact absurd h (by simp)

theorem scatterGrad_length (real : List Bool) (rg : List Vec3) :
    (scatterGrad real rg).length = real.length := by
  induction real generalizing rg with
  | nil => rfl
  | cons b rs ih =>
    cases b with
    | false => simp [scatterGrad, ih]
    | true =>
      cases rg with
      | nil => simp [scatterGrad, ih]
      | cons g gs => simp [scatterGrad, ih]

theorem scatterGrad_get_false (real : List Bool) (rg : List Vec3) (i : Nat)
    (h : real[i]? = some false) :
    (scatterGrad real rg)[i]? = some zero3 := by
  induction real generalizing rg i with
  | nil => simp at h
  | cons b rs ih =>
    cases i with
    | zero =>
      simp at h
      subst h
      simp [scatterGrad]
    | succ n =>
      simp at h
      cases b with
      | false => simpa [scatterGrad] using ih rg n h
      | true =>
        cases rg with
        | nil => simpa [scatterGrad] using ih [] n h
        | cons g gs => simpa [scatterGrad] using ih gs n h

theorem scatterGrad_get_true (real : List Bool) (rg : List Vec3) (i : Nat)
    (hlen : rg.length = countTrue real)
    (h : real[i]? = some true) :
    (scatterGrad real rg)[i]? = rg[countTrue (real.take i)]? := by
  induction real generalizing rg i with
  | nil => simp at h
  | cons b rs ih =>
    cases b with
    | true =>
      cases rg with
      | nil => simp [countTrue] at hlen
      | cons g gs =>
        cases i with
        | zero => simp [scatterGrad, countTrue]
        | succ n =>
          have h' : rs[n]? = some true := by simpa using h
          have hlen' : gs.length = countTrue rs := by
            simp [countTrue] at hlen
            omega
          simpa [scatterGrad, countTrue] using ih gs n hlen' h'
    | false =>
      cases i with
      | zero => simp at h
      | succ n =>
        have h' : rs[n]? = some true := by simpa using h
        have hlen' : rg.length = countTrue rs := by simpa [countTrue] using hlen
        simpa [scatterGrad, countTrue] using ih rg n hlen' h'

theorem chunk3_length (n : Nat) : ∀ vals : List Dec, vals.length = 3 * n →
    (chunk3 vals).length = n := by
  induction n with
  | zero =>
    intro vals h
    have hv : vals = [] := List.eq_nil_of_length_eq_zero (by omega)
    subst hv
    rfl
  | succ m ih =>
    intro vals h
    cases vals with
    | nil => simp at h
    | cons a t1 =>
      cases t1 with
      | nil => simp at h; omega
      | cons b t2 =>
        cases t2 with
        | nil => simp at h; omega
        | cons c t =>
          have ht := ih t (by simp at h; omega)
          simp [chunk3, ht]

theorem parseFloatList_length : ∀ (l : List String) (ds : List Dec),
    parseFloatList l = some ds → ds.length = l.length := by
  intro l
  induction l with
  | nil =>
    intro ds h
    simp [parseFloatList] at h
    simp [← h]
  | cons t ts ih =>
    intro ds h
    unfold parseFloatList at h
    cases hd : parseDecimal t with
    | none => rw [hd] at h; simp at h
    | some d =>
      cases hts : parseFloatList ts with
      | none => rw [hd, hts] at h; simp at h
      | some ds' =>
        rw [hd, hts] at h
        simp at h
        simp [← h, ih ds' hts]

theorem np_fromstring_ok (s : String) (c : Nat) (vals : List Dec)
    (h : np_fromstring s c = .ok vals) : vals.length = c := by
  unfold np_fromstring at h
  split at h
  · simp at h
  · split at h
    · simp at h
    · next ds hds =>
      simp at h
      subst h
      rw [parseFloatList_length _ _ hds, List.length_take]
      omega

theorem dget_append_last {α : Type} (l : List (String × α)) (k : String) (v : α) :
    dget (l ++ [(k, v)]) k = some v := by
  simp [dget, List.reverse_append, List.find?]

theorem dget_append_other {α : Type} (l : List (String × α)) (k' k : String) (v : α)
    (h : (k' == k) = false) : dget (l ++ [(k', v)]) k = dget l k := by
  simp [dget, List.reverse_append, List.find?, h]

theorem dget_build_grad (k : String) (ene : Dec) (fg : List Vec3) :
    dget (buildQcvars k ene (some fg)) "DISPERSION CORRECTION GRADIENT" =
      some (QCVar.grad fg) := by
  have hne : ((k ++ " DISPERSION CORRECTION GRADIENT" : String) ==
      "DISPERSION CORRECTION GRADIENT") = false :=
    beq_false_of_ne (append_long_ne k _ _ (by decide))
  by_cases hk : k = ""
  · subst hk
    simp [dget, buildQcvars, List.reverse_append, List.find?]
  · simp only [buildQcvars, if_neg hk]
    simp only [dget, List.reverse_append, List.reverse_cons, List.reverse_nil,
      List.nil_append, List.cons_append, List.append_assoc]
    simp [List.find?, hne]

theorem dget_build_DCE (k : String) (ene : Dec) (fg : Option (List Vec3)) :
    dget (buildQcvars k ene fg) "DISPERSION CORRECTION ENERGY" =
      some (QCVar.scalar ene) := by
  have hne : ((k ++ " DISPERSION CORRECTION ENERGY" : String) ==
      "DISPERSION CORRECTION ENERGY") = false :=
    beq_false_of_ne (append_long_ne k _ _ (by decide))
  have hne2 : ((k ++ " DISPERSION CORRECTION GRADIENT" : String) ==
      "DISPERSION CORRECTION ENERGY") = false :=
    beq_false_of_ne (append_long_ne k _ _ (by decide))
  by_cases hk : k = ""
  · subst hk
    cases fg <;> simp [dget, buildQcvars, List.reverse_append, List.find?]
  · cases fg with
    | none =>
      simp only [buildQcvars, if_neg hk]
      simp only [dget, List.reverse_append, List.reverse_cons, List.reverse_nil,
        List.nil_append, List.cons_append, List.append_assoc]
      simp [List.find?, hne]
    | some f =>
      simp only [buildQcvars, if_neg hk]
      simp only [dget, List.reverse_append, List.reverse_cons, List.reverse_nil,
        List.nil_append, List.cons_append, List.append_assoc]
      simp [List.find?, hne, hne2]

theorem dget_build_2BE (k : String) (ene : Dec) :
    dget (buildQcvars k ene none) "2-BODY DISPERSION CORRECTION ENERGY" =
      some (QCVar.scalar ene) := by
  by_cases hk : k = ""
  · subst hk
    simp [dget, buildQcvars, List.reverse_append, List.find?]
  · cases hb : ((k ++ " DISPERSION CORRECTION ENERGY" : String) ==
        "2-BODY DISPERSION CORRECTION ENERGY") with
    | true =>
      simp only [buildQcvars, if_neg hk]
      simp only [dget, List.reverse_append, List.reverse_cons, List.reverse_nil,
        List.nil_append, List.cons_append, List.append_assoc]
      simp [List.find?, hb]
    | false =>
      simp only [buildQcvars, if_neg hk]
      simp only [dget, List.reverse_append, List.reverse_cons, List.reverse_nil,
        List.nil_append, List.cons_append, List.append_assoc]
      simp [List.find?, hb]

theorem dget_build_label (k : String) (ene : Dec) (v : QCVar)
    (hk : ¬(k = "")) :
    (dget (buildQcvars k ene none ++ [("CURRENT ENERGY", v)])
      (k ++ " DISPERSION CORRECTION ENERGY")).isSome = true := by
  have hce : (("CURRENT ENERGY" : String) ==
      (k ++ " DISPERSION CORRECTION ENERGY")) = false :=
    beq_false_of_ne (Ne.symm (append_long_ne k _ _ (by decide)))
  simp only [buildQcvars, if_neg hk]
  simp only [dget, List.reverse_append, List.reverse_cons, List.reverse_nil,
    List.nil_append, List.cons_append, List.append_assoc]
  simp [List.find?, hce]

theorem dget_build_label_empty (ene : Dec) (v : QCVar) :
    dget (buildQcvars "" ene none ++ [("CURRENT ENERGY", v)])
      ("" ++ " DISPERSION CORRECTION ENERGY") = none := by
  simp [dget, buildQcvars, List.reverse_append, List.find?]

theorem pyUpper_empty_iff (s : String) : pyUpper s = "" ↔ s = "" := by
  constructor
  · intro h
    have hd := congrArg String.data h
    simp [pyUpper] at hd
    cases s
    simp_all
  · intro h
    subst h
    rfl

theorem harvest_energy_ok (real : List Bool) (fd : String) (out : ProcessOutcome)
    (h : HarvestResult)
    (hh : mp2d_harvest Driver.energy real fd out = .ok h) :
    ∃ ene ver, h = ⟨buildQcvars (pyUpper fd) ene none, ⟨"mp2d", "mp2d_harvest", ver⟩⟩ := by
  unfold mp2d_harvest at hh
  cases hs : scanLines out.stdout none none with
  | error e => rw [hs] at hh; simp at hh
  | ok t =>
    obtain ⟨v, e, broke⟩ := t
    rw [hs] at hh
    dsimp only at hh
    split at hh
    · simp at hh
    · cases hg : parseGradOpt out.mp2d_gradient (countTrue real) with
      | error err => rw [hg] at hh; simp at hh
      | ok rg =>
        rw [hg] at hh
        dsimp only at hh
        rw [if_neg (by simp : ¬(Driver.energy = Driver.gradient))] at hh
        dsimp only at hh
        cases e with
        | none => simp at hh
        | some ene =>
          cases v with
          | none => simp at hh
          | some ver =>
            refine ⟨ene, ver, ?_⟩
            exact (Except.ok.inj hh).symm

theorem harvest_ok_prov (d : Driver) (real : List Bool) (fd : String)
    (out : ProcessOutcome) (h : HarvestResult)
    (hh : mp2d_harvest d real fd out = .ok h) :
    ∃ ver oe b, scanLines out.stdout none none = .ok (some ver, oe, b) ∧
      h.provenance = ⟨"mp2d", "mp2d_harvest", ver⟩ := by
  unfold mp2d_harvest at hh
  cases hs : scanLines out.stdout none none with
  | error e => rw [hs] at hh; simp at hh
  | ok t =>
    obtain ⟨v, e, broke⟩ := t
    rw [hs] at hh
    dsimp only at hh
    split at hh
    · simp at hh
    · cases hg : parseGradOpt out.mp2d_gradient (countTrue real) with
      | error err => rw [hg] at hh; simp at hh
      | ok rg =>
        rw [hg] at hh
        dsimp only at hh
        split at hh
        · simp at hh
        · cases e with
          | none => simp at hh
          | some ene =>
            cases v with
            | none => simp at hh
            | some ver =>
              refine ⟨ver, some ene, broke, rfl, ?_⟩
              rw [← Except.ok.inj hh]

theorem harvest_gradient_ok (real : List Bool) (fd : String) (stdout : List String)
    (s : String) (vals : List Dec) (res : HarvestResult)
    (hparse : np_fromstring s (3 * countTrue real) = .ok vals)
    (hrun : mp2d_harvest Driver.gradient real fd ⟨stdout, some s⟩ = .ok res) :
    ∃ ene ver, res = ⟨buildQcvars (pyUpper fd) ene (some (scatterGrad real (chunk3 vals))),
      ⟨"mp2d", "mp2d_harvest", ver⟩⟩ := by
  unfold mp2d_harvest at hrun
  cases hs : scanLines stdout none none with
  | error e =>
    rw [show (ProcessOutcome.mk stdout (some s)).stdout = stdout from rfl, hs] at hrun
    simp at hrun
  | ok t =>
    obtain ⟨v, e, broke⟩ := t
    rw [show (ProcessOutcome.mk stdout (some s)).stdout = stdout from rfl, hs] at hrun
    dsimp only at hrun
    split at hrun
    · simp at hrun
    · simp only [parseGradOpt, hparse, if_true] at hrun
      cases e with
      | none => simp at hrun
      | some ene =>
        cases v with
        | none => simp at hrun
        | some ver =>
          exact ⟨ene, ver, (Except.ok.inj hrun).symm⟩

/-! Claim theorems. -/

/-- C1 (amended): when the stdout scan of `mp2d_harvest` exhausts all lines
without the coordinates break and without finding the dispersion-correction
energy marker, harvest raises `UnknownError('Unknown issue occured.')` — not a
`ResultParsingError`, which does not exist in the code — except when the
molecule has exactly one real atom and the driver is gradient, in which case
that error is never raised. -/
theorem C1_no_energy_marker (driver : Driver) (real : List Bool) (fd : String)
    (out : ProcessOutcome) (v : Option String)
    (hscan : scanLines out.stdout none none = .ok (v, none, false)) :
    (¬(countTrue real = 1 ∧ driver = Driver.gradient) →
      mp2d_harvest driver real fd out = .error (.unknownError "Unknown issue occured."))
    ∧ ((countTrue real = 1 ∧ driver = Driver.gradient) →
      mp2d_harvest driver real fd out ≠ .error (.unknownError "Unknown issue occured.")) := by
  constructor
  · intro hnd
    unfold mp2d_harvest
    rw [hscan]
    simp [hnd]
  · rintro ⟨h1, h2⟩
    subst h2
    unfold mp2d_harvest
    rw [hscan]
    dsimp only
    rw [if_neg (by simp [h1])]
    rw [h1]
    cases hf : out.mp2d_gradient with
    | none => simp [parseGradOpt]
    | some s =>
      simp only [parseGradOpt]
      cases hnp : np_fromstring s (3 * 1) with
      | error e =>
        rcases np_fromstring_error s (3 * 1) e hnp with h | h <;> simp [h]
      | ok vals => simp

/-- C1 witness: empty stdout, two real atoms, energy driver. -/
theorem C1_no_energy_marker_witness :
    scanLines ([] : List String) none none = .ok (none, none, false) ∧
    mp2d_harvest Driver.energy [true, true] "" ⟨[], none⟩ =
      .error (.unknownError "Unknown issue occured.") :=
  ⟨rfl, (C1_no_energy_marker Driver.energy [true, true] "" ⟨[], none⟩ none rfl).1 (by decide)⟩

/-- C1 counterexample: the raised error is `UnknownError`, not the claim's
`ResultParsingError`. -/
theorem C1_counterexample :
    mp2d_harvest Driver.energy [true, true] "" ⟨[], none⟩ =
      .error (.unknownError "Unknown issue occured.") ∧
    raisedParseErr (mp2d_harvest Driver.energy [true, true] "" ⟨[], none⟩) = false :=
  ⟨rfl, rfl⟩

/-- C2 (amended): a resolved dispersion level other than dmp2 makes the
planner fail with `InputError` (not `ConfigurationError`) before any command
is delivered, and the message names the unsupported level and the keys of the
coefficient dictionary (not the set of known levels). -/
theorem C2_bad_level (driver : Driver) (info : Info)
    (hl : pyLower info.dashlevel ≠ "dmp2") :
    mp2d_plant driver info =
      .error (.inputError (coeffErrMsg (pyLower info.dashlevel) info.dashparams)) := by
  unfold mp2d_plant mp2d_coeff_formatter
  simp [hl]

/-- C2 witness: level d3. -/
theorem C2_bad_level_witness :
    pyLower ("d3" : String) ≠ "dmp2" ∧
    mp2d_plant Driver.energy ⟨"d3", [("s6", "1.0")], ""⟩ =
      .error (.inputError (coeffErrMsg (pyLower "d3") [("s6", "1.0")])) :=
  ⟨by decide, C2_bad_level Driver.energy ⟨"d3", [("s6", "1.0")], ""⟩ (by decide)⟩

/-- C2 counterexample: the raised error is `InputError` and its message lists
the coefficient keys, not the known levels; it is not a `ConfigurationError`. -/
theorem C2_counterexample :
    mp2d_plant Driver.energy ⟨"d3", [("s6", "1.0")], ""⟩ =
      .error (.inputError
        "-D correction level d3 is not available. Choose among dict_keys([\x27s6\x27]).") ∧
    raisedCfgErr (mp2d_plant Driver.energy ⟨"d3", [("s6", "1.0")], ""⟩) = false :=
  ⟨rfl, rfl⟩

/-- C5 (amended): with the gradient driver and the gradient output file
absent, harvest fails with `UnknownError('Unsuccessful gradient collection.')`
(the spec's `ResultParsingError` does not exist, and the code's message is
capitalised with a trailing period). -/
theorem C5_absent_gradient_file (real : List Bool) (fd : String) (stdout : List String)
    (v : Option String) (e : Option Dec) (b : Bool)
    (hscan : scanLines stdout none none = .ok (v, e, b))
    (hok : b = true ∨ countTrue real = 1) :
    mp2d_harvest Driver.gradient real fd ⟨stdout, none⟩ =
      .error (.unknownError "Unsuccessful gradient collection.") := by
  unfold mp2d_harvest
  rw [show (ProcessOutcome.mk stdout none).stdout = stdout from rfl, hscan]
  dsimp only
  rw [if_neg (by rcases hok with h | h <;> simp [h])]
  simp [parseGradOpt]

/-- C5 witness: scan stopped by the coordinates line, no gradient file. -/
theorem C5_absent_gradient_file_witness :
    scanLines ["Atomic Coordinates in Angstroms"] none none = .ok (none, none, true) ∧
    mp2d_harvest Driver.gradient [true, false] "" ⟨["Atomic Coordinates in Angstroms"], none⟩ =
      .error (.unknownError "Unsuccessful gradient collection.") :=
  ⟨rfl, C5_absent_gradient_file [true, false] "" ["Atomic Coordinates in Angstroms"]
    none none true rfl (Or.inl rfl)⟩

/-- C5 counterexample: the raised error is `UnknownError`, not
`ResultParsingError`, and its message differs from the claim's quoted text. -/
theorem C5_counterexample :
    mp2d_harvest Driver.gradient [true, true] "" ⟨["Atomic Coordinates in Angstroms"], none⟩ =
      .error (.unknownError "Unsuccessful gradient collection.") ∧
    raisedParseErr (mp2d_harvest Driver.gradient [true, true] ""
      ⟨["Atomic Coordinates in Angstroms"], none⟩) = false ∧
    ("Unsuccessful gradient collection." : String) ≠ "unsuccessful gradient collection" :=
  ⟨rfl, rfl, by decide⟩

/-- C6: a driver outside energy/gradient makes `run_json` fail with
`InputError` naming the driver, and the result does not depend on the process
outcome — the external program is never consulted. -/
theorem C6_driver_gate (j : JobInput)
    (hd : j.driver ≠ Driver.energy ∧ j.driver ≠ Driver.gradient) :
    (∀ out : ProcessOutcome,
      runJson j out = .error ⟨.inputError (driverErrMsg j.driver),
        ⟨"input_error", driverRecordMsg⟩⟩)
    ∧ ∀ out out' : ProcessOutcome, runJson j out = runJson j out' := by
  have hh : j.driver = Driver.hessian := by
    cases h : j.driver
    · exact absurd h hd.1
    · exact absurd h hd.2
    · rfl
  have key : ∀ out : ProcessOutcome,
      runJson j out = .error ⟨.inputError (driverErrMsg j.driver),
        ⟨"input_error", driverRecordMsg⟩⟩ := by
    intro out
    unfold runJson
    rw [hh]
    simp [Driver.derivative_int]
  exact ⟨key, fun o o' => (key o).trans (key o').symm⟩

/-- C6 witness: hessian driver. -/
theorem C6_driver_gate_witness :
    ((Driver.hessian ≠ Driver.energy ∧ Driver.hessian ≠ Driver.gradient)) ∧
    runJson ⟨"dmp2", Driver.hessian, [true], ⟨"dmp2", stdParams, ""⟩⟩ ⟨[], none⟩ =
      .error ⟨.inputError (driverErrMsg Driver.hessian),
        ⟨"input_error", driverRecordMsg⟩⟩ :=
  ⟨by decide,
   (C6_driver_gate ⟨"dmp2", Driver.hessian, [true], ⟨"dmp2", stdParams, ""⟩⟩
     ⟨by decide, by decide⟩).1 ⟨[], none⟩⟩

/-- C7: for resolved level dmp2 the built command is exactly the program name,
the geometry file name, the `--gradient` flag iff the driver is gradient, and
the five coefficient arguments in fixed order with values passed through
verbatim. -/
theorem C7_command_layout (driver : Driver) (info : Info) (a1 a2 rcut w s8 : String)
    (hl : pyLower info.dashlevel = "dmp2")
    (h1 : dget info.dashparams "a1" = some a1)
    (h2 : dget info.dashparams "a2" = some a2)
    (h3 : dget info.dashparams "rcut" = some rcut)
    (h4 : dget info.dashparams "w" = some w)
    (h5 : dget info.dashparams "s8" = some s8) :
    mp2d_plant driver info = .ok ⟨["mp2d_geometry"], ["mp2d_gradient"],
      (["mp2d", "mp2d_geometry"] ++
        (if driver = Driver.gradient then ["--gradient"] else [])) ++
      ["--TT_a1=" ++ a1, "--TT_a2=" ++ a2, "--rcut=" ++ rcut,
       "--w=" ++ w, "--s8=" ++ s8]⟩ := by
  unfold mp2d_plant mp2d_coeff_formatter
  rw [hl]
  simp only [if_pos rfl, h1, h2, h3, h4, h5]
  cases driver <;> simp

/-- C7 witness: gradient driver with the stock coefficients. -/
theorem C7_command_layout_witness :
    pyLower ("dmp2" : String) = "dmp2" ∧
    dget stdParams "a1" = some "0.944" ∧
    dget stdParams "a2" = some "0.480" ∧
    dget stdParams "rcut" = some "0.72" ∧
    dget stdParams "w" = some "0.20" ∧
    dget stdParams "s8" = some "1.187" ∧
    mp2d_plant Driver.gradient ⟨"dmp2", stdParams, ""⟩ =
      .ok ⟨["mp2d_geometry"], ["mp2d_gradient"],
        (["mp2d", "mp2d_geometry"] ++
          (if Driver.gradient = Driver.gradient then ["--gradient"] else [])) ++
        ["--TT_a1=" ++ "0.944", "--TT_a2=" ++ "0.480", "--rcut=" ++ "0.72",
         "--w=" ++ "0.20", "--s8=" ++ "1.187"]⟩ :=
  ⟨rfl, rfl, rfl, rfl, rfl, rfl,
   C7_command_layout Driver.gradient ⟨"dmp2", stdParams, ""⟩
     "0.944" "0.480" "0.72" "0.20" "1.187" rfl rfl rfl rfl rfl rfl⟩

/-- C10: the error record written for an unsupported driver carries the
literal uninterpolated template text (the source string has no f prefix). -/
theorem C10_literal_template (j : JobInput) (hd : 1 < j.driver.derivative_int) :
    ∀ out : ProcessOutcome,
      getRecorded (runJson j out) =
        some ⟨"input_error",
          "MP2D produces max gradient, not \x7bjobrec[\x27driver\x27]\x7d"⟩ := by
  intro out
  unfold runJson
  rw [if_pos hd]
  rfl

/-- C10 witness: hessian driver. -/
theorem C10_literal_template_witness :
    1 < (Driver.hessian).derivative_int ∧
    getRecorded (runJson ⟨"dmp2", Driver.hessian, [true, true], ⟨"dmp2", stdParams, ""⟩⟩
        ⟨["some stdout"], none⟩) =
      some ⟨"input_error",
        "MP2D produces max gradient, not \x7bjobrec[\x27driver\x27]\x7d"⟩ :=
  ⟨by decide,
   C10_literal_template ⟨"dmp2", Driver.hessian, [true, true], ⟨"dmp2", stdParams, ""⟩⟩
     (by decide) ⟨["some stdout"], none⟩⟩

/-- C4: with the gradient driver, a present gradient file parsed as exactly
`3 × R` numbers yields a full gradient of one row per atom: zero rows at
non-real indices, and the parsed rows in order at real indices. -/
theorem C4_gradient_scatter (real : List Bool) (fd : String) (stdout : List String)
    (s : String) (vals : List Dec) (res : HarvestResult)
    (hparse : np_fromstring s (3 * countTrue real) = .ok vals)
    (hrun : mp2d_harvest Driver.gradient real fd ⟨stdout, some s⟩ = .ok res) :
    vals.length = 3 * countTrue real ∧
    dget res.qcvars "DISPERSION CORRECTION GRADIENT" =
      some (QCVar.grad (scatterGrad real (chunk3 vals))) ∧
    (scatterGrad real (chunk3 vals)).length = real.length ∧
    (∀ i : Nat, real[i]? = some false → (scatterGrad real (chunk3 vals))[i]? = some zero3) ∧
    (∀ i : Nat, real[i]? = some true →
      (scatterGrad real (chunk3 vals))[i]? = (chunk3 vals)[countTrue (real.take i)]?) := by
  have hlen := np_fromstring_ok s _ vals hparse
  have hchunk : (chunk3 vals).length = countTrue real :=
    chunk3_length (countTrue real) vals hlen
  obtain ⟨ene, ver, hres⟩ := harvest_gradient_ok real fd stdout s vals res hparse hrun
  subst hres
  refine ⟨hlen, ?_, scatterGrad_length real (chunk3 vals), ?_, ?_⟩
  · exact dget_build_grad _ _ _
  · intro i hi
    exact scatterGrad_get_false real (chunk3 vals) i hi
  · intro i hi
    exact scatterGrad_get_true real (chunk3 vals) i hchunk hi

/-- C4 witness: the two-real-atom gradient scenario with six parsed numbers. -/
theorem C4_gradient_scatter_witness :
    np_fromstring c4gradFile (3 * countTrue [true, true]) = .ok c4vals ∧
    mp2d_harvest Driver.gradient [true, true] "" ⟨c4out.stdout, some c4gradFile⟩ = .ok c4res ∧
    dget c4res.qcvars "DISPERSION CORRECTION GRADIENT" =
      some (QCVar.grad (scatterGrad [true, true] (chunk3 c4vals))) :=
  ⟨rfl, rfl,
   (C4_gradient_scatter [true, true] "" c4out.stdout c4gradFile c4vals c4res rfl rfl).2.1⟩

/-- C8: for a successful energy-driver run the primary result equals the
`CURRENT ENERGY` entry, which equals the `DISPERSION CORRECTION ENERGY` and
`2-BODY DISPERSION CORRECTION ENERGY` entries; `return_energy` equals the
primary result; and the labelled entry is present iff the functional-dash
label is nonempty. -/
theorem C8_energy_quantities (j : JobInput) (out : ProcessOutcome) (res : RunSuccess)
    (hj : j.driver = Driver.energy)
    (hrun : runJson j out = .ok res) :
    dget res.qcvars "CURRENT ENERGY" = some res.return_result ∧
    dget res.qcvars "DISPERSION CORRECTION ENERGY" = some res.return_result ∧
    dget res.qcvars "2-BODY DISPERSION CORRECTION ENERGY" = some res.return_result ∧
    res.return_energy = res.return_result ∧
    ((dget res.qcvars
        (pyUpper j.info.fctldash ++ " DISPERSION CORRECTION ENERGY")).isSome = true
      ↔ ¬(j.info.fctldash = "")) := by
  unfold runJson at hrun
  rw [hj] at hrun
  rw [if_neg (by simp [Driver.derivative_int])] at hrun
  cases hp : mp2d_plant Driver.energy j.info with
  | error e => rw [hp] at hrun; simp at hrun
  | ok plan =>
    rw [hp] at hrun
    dsimp only at hrun
    cases hh : mp2d_harvest Driver.energy j.real j.info.fctldash out with
    | error e => rw [hh] at hrun; simp at hrun
    | ok h =>
      rw [hh] at hrun
      dsimp only at hrun
      obtain ⟨ene, ver, hres⟩ := harvest_energy_ok j.real j.info.fctldash out h hh
      subst hres
      rw [dget_build_DCE] at hrun
      dsimp only at hrun
      have hr : res = ⟨QCVar.scalar ene, QCVar.scalar ene,
          buildQcvars (pyUpper j.info.fctldash) ene none ++
            [("CURRENT ENERGY", QCVar.scalar ene)],
          ⟨"mp2d", "mp2d_harvest", ver⟩⟩ := (Except.ok.inj hrun).symm
      subst hr
      refine ⟨dget_append_last _ _ _, ?_, ?_, rfl, ?_⟩
      · rw [dget_append_other _ _ _ _ (by decide)]
        exact dget_build_DCE _ _ _
      · rw [dget_append_other _ _ _ _ (by decide)]
        exact dget_build_2BE _ _
      · constructor
        · intro hsome hfd
          rw [hfd] at hsome
          rw [show pyUpper "" = "" from rfl] at hsome
          rw [dget_build_label_empty] at hsome
          simp at hsome
        · intro hfd
          exact dget_build_label _ ene _ (fun hc => hfd ((pyUpper_empty_iff _).mp hc))

/-- C8 witness: successful energy run with label DMP2. -/
theorem C8_energy_quantities_witness :
    c8job.driver = Driver.energy ∧
    runJson c8job c9okOut = .ok c8res ∧
    dget c8res.qcvars "CURRENT ENERGY" = some c8res.return_result ∧
    dget c8res.qcvars "DISPERSION CORRECTION ENERGY" = some c8res.return_result ∧
    ((dget c8res.qcvars
        (pyUpper c8job.info.fctldash ++ " DISPERSION CORRECTION ENERGY")).isSome = true
      ↔ ¬(c8job.info.fctldash = "")) :=
  ⟨rfl, rfl,
   (C8_energy_quantities c8job c9okOut c8res rfl rfl).1,
   (C8_energy_quantities c8job c9okOut c8res rfl rfl).2.1,
   (C8_energy_quantities c8job c9okOut c8res rfl rfl).2.2.2.2⟩

/-- C9 (amended): every successful run's provenance is the harvester's —
creator mp2d, routine mp2d_harvest, version as parsed by the scan — which
differs from (and so overwrites) the orchestrator's stamp; but when the
version marker line is never matched, run_json fails with an
`UnboundLocalError` on `version` instead of omitting the field. -/
theorem C9_provenance_overwrite :
    (∀ (j : JobInput) (out : ProcessOutcome) (res : RunSuccess) (ver : String)
        (oe : Option Dec) (b : Bool),
      runJson j out = .ok res →
      scanLines out.stdout none none = .ok (some ver, oe, b) →
      res.provenance = ⟨"mp2d", "mp2d_harvest", ver⟩ ∧
      res.provenance.creator ≠ (provenance_stamp "run_json.qcengine.programs.mp2d").creator) ∧
    runJson c9job c9errOut =
      .error ⟨.unboundLocalError "version", excRecord (.unboundLocalError "version")⟩ := by
  constructor
  · intro j out res ver oe b hrun hscan
    unfold runJson at hrun
    by_cases hd : j.driver.derivative_int > 1
    · rw [if_pos hd] at hrun
      simp at hrun
    · rw [if_neg hd] at hrun
      cases hp : mp2d_plant j.driver j.info with
      | error e => rw [hp] at hrun; simp at hrun
      | ok plan =>
        rw [hp] at hrun
        dsimp only at hrun
        cases hh : mp2d_harvest j.driver j.real j.info.fctldash out with
        | error e => rw [hh] at hrun; simp at hrun
        | ok h =>
          rw [hh] at hrun
          dsimp only at hrun
          obtain ⟨ver', oe', b', hs', hprov⟩ :=
            harvest_ok_prov j.driver j.real j.info.fctldash out h hh
          rw [hscan] at hs'
          have h3 := congrArg Prod.fst (Except.ok.inj hs')
          have hv : ver' = ver := (Option.some.inj h3).symm
          have hrp : res.provenance = h.provenance := by
            cases hge : dget h.qcvars "DISPERSION CORRECTION ENERGY" with
            | none => rw [hge] at hrun; simp at hrun
            | some ene =>
              rw [hge] at hrun
              dsimp only at hrun
              cases hdr : j.driver with
              | energy =>
                rw [hdr] at hrun
                dsimp only at hrun
                rw [← Except.ok.inj hrun]
              | gradient =>
                rw [hdr] at hrun
                dsimp only at hrun
                cases hgg : dget (h.qcvars ++ [("CURRENT ENERGY", ene)])
                    "DISPERSION CORRECTION GRADIENT" with
                | none => rw [hgg] at hrun; simp at hrun
                | some g =>
                  rw [hgg] at hrun
                  dsimp only at hrun
                  rw [← Except.ok.inj hrun]
              | hessian =>
                refine absurd ?_ hd
                rw [hdr]
                decide
          rw [hrp, hprov, hv]
          refine ⟨rfl, ?_⟩
          show ("mp2d" : String) ≠ "QCEngine"
          decide
  · rfl

/-- C9 witness: a successful run whose provenance is the harvester's. -/
theorem C9_provenance_overwrite_witness :
    runJson c9job c9okOut = .ok c9okRes ∧
    scanLines c9okOut.stdout none none =
      .ok (some "mp2d dispersion correction v1.1", some ⟨-1234, 6⟩, true) ∧
    c9okRes.provenance = ⟨"mp2d", "mp2d_harvest", "mp2d dispersion correction v1.1"⟩ ∧
    c9okRes.provenance.creator ≠ (provenance_stamp "run_json.qcengine.programs.mp2d").creator := by
  have hr : runJson c9job c9okOut = .ok c9okRes := by rfl
  have hs : scanLines c9okOut.stdout none none =
      .ok (some "mp2d dispersion correction v1.1", some ⟨-1234, 6⟩, true) := by rfl
  exact ⟨hr, hs, C9_provenance_overwrite.1 c9job c9okOut c9okRes
    "mp2d dispersion correction v1.1" (some ⟨-1234, 6⟩) true hr hs⟩

/-- C9 counterexample: with the version marker missing but the energy line
present, the code raises (UnboundLocalError) instead of silently omitting the
version field. -/
theorem C9_counterexample :
    runJson c9job c9errOut =
      .error ⟨.unboundLocalError "version",
        ⟨"UnboundLocalError", "UnboundLocalError: version"⟩⟩ ∧
    getRecorded (runJson c9job c9errOut) ≠ none :=
  ⟨rfl, by decide⟩

/-- C3 (amended): the energy is the decimal value of the fifth
whitespace-delimited token of the energy-label line, and it becomes both
`return_energy` and the primary result; on the claim's example line that
fifth token is `0`, not `-0.001234` (see the counterexample). -/
theorem C3_fifth_token (ln tok : String) (q : Dec)
    (h1 : strHas ln "MP2D Dispersion correction v" = false)
    (h2 : strStarts "   MP2D dispersion correction Eh" ln = true)
    (h3 : (pySplit ln)[4]? = some tok)
    (h4 : parseDecimal tok = some q) :
    getReturnEnergy (runJson c3job ⟨c3stdout ln, none⟩) = some (QCVar.scalar q) ∧
    getReturnResult (runJson c3job ⟨c3stdout ln, none⟩) = some (QCVar.scalar q) := by
  have e1 : strHas "MP2D Dispersion correction v1.1" "MP2D Dispersion correction v" = true := rfl
  have ev : versionOfLine "MP2D Dispersion correction v1.1" =
      "mp2d dispersion correction v1.1" := rfl
  have e2 : strHas "Atomic Coordinates in Angstroms" "MP2D Dispersion correction v" = false := rfl
  have e3 : strStarts "   MP2D dispersion correction Eh" "Atomic Coordinates in Angstroms"
      = false := rfl
  have e4 : strStarts "Atomic Coordinates in Angstroms" "Atomic Coordinates in Angstroms"
      = true := rfl
  have hscan : scanLines (c3stdout ln) none none =
      .ok (some "mp2d dispersion correction v1.1", some q, true) := by
    simp [c3stdout, scanLines, e1, ev, e2, e3, e4, h1, h2, h3, h4]
  have hharv : mp2d_harvest Driver.energy [true, true] "" ⟨c3stdout ln, none⟩ =
      .ok ⟨[("DISPERSION CORRECTION ENERGY", QCVar.scalar q),
            ("2-BODY DISPERSION CORRECTION ENERGY", QCVar.scalar q)],
           ⟨"mp2d", "mp2d_harvest", "mp2d dispersion correction v1.1"⟩⟩ := by
    unfold mp2d_harvest
    rw [show (ProcessOutcome.mk (c3stdout ln) none).stdout = c3stdout ln from rfl, hscan]
    dsimp only
    rw [if_neg (by simp)]
    have hpu : pyUpper "" = "" := rfl
    simp [parseGradOpt, buildQcvars, hpu]
  have hrunOk : runJson c3job ⟨c3stdout ln, none⟩ =
      .ok ⟨QCVar.scalar q, QCVar.scalar q,
           [("DISPERSION CORRECTION ENERGY", QCVar.scalar q),
            ("2-BODY DISPERSION CORRECTION ENERGY", QCVar.scalar q),
            ("CURRENT ENERGY", QCVar.scalar q)],
           ⟨"mp2d", "mp2d_harvest", "mp2d dispersion correction v1.1"⟩⟩ := by
    unfold runJson
    rw [if_neg (by decide)]
    rw [show mp2d_plant c3job.driver c3job.info = Except.ok ⟨["mp2d_geometry"],
      ["mp2d_gradient"], ["mp2d", "mp2d_geometry", "--TT_a1=0.944", "--TT_a2=0.480",
      "--rcut=0.72", "--w=0.20", "--s8=1.187"]⟩ from rfl]
    dsimp only
    rw [show mp2d_harvest c3job.driver c3job.real c3job.info.fctldash ⟨c3stdout ln, none⟩ =
        mp2d_harvest Driver.energy [true, true] "" ⟨c3stdout ln, none⟩ from rfl]
    rw [hharv]
    dsimp only
    rw [show dget [("DISPERSION CORRECTION ENERGY", QCVar.scalar q),
          ("2-BODY DISPERSION CORRECTION ENERGY", QCVar.scalar q)]
          "DISPERSION CORRECTION ENERGY" = some (QCVar.scalar q) from by
        simp [dget, List.find?]]
    rfl
  rw [hrunOk]
  exact ⟨rfl, rfl⟩

/-- C3 witness: the energy as the fifth token parses to -0.001234 Eh. -/
theorem C3_fifth_token_witness :
    strHas "   MP2D dispersion correction Eh   -0.001234" "MP2D Dispersion correction v"
      = false ∧
    strStarts "   MP2D dispersion correction Eh" "   MP2D dispersion correction Eh   -0.001234"
      = true ∧
    (pySplit "   MP2D dispersion correction Eh   -0.001234")[4]? = some "-0.001234" ∧
    parseDecimal "-0.001234" = some ⟨-1234, 6⟩ ∧
    getReturnEnergy (runJson c3job
      ⟨c3stdout "   MP2D dispersion correction Eh   -0.001234", none⟩) =
      some (QCVar.scalar ⟨-1234, 6⟩) ∧
    decVal ⟨-1234, 6⟩ = -1234 / 1000000 := by
  have k1 : strHas "   MP2D dispersion correction Eh   -0.001234"
      "MP2D Dispersion correction v" = false := by rfl
  have k2 : strStarts "   MP2D dispersion correction Eh"
      "   MP2D dispersion correction Eh   -0.001234" = true := by rfl
  have k3 : (pySplit "   MP2D dispersion correction Eh   -0.001234")[4]? =
      some "-0.001234" := by rfl
  have k4 : parseDecimal "-0.001234" = some ⟨-1234, 6⟩ := by rfl
  exact ⟨k1, k2, k3, k4,
    (C3_fifth_token "   MP2D dispersion correction Eh   -0.001234" "-0.001234" ⟨-1234, 6⟩
      k1 k2 k3 k4).1,
    by norm_num [decVal]⟩

/-- C3 counterexample: on the claim's quoted stdout line the fifth token is
`0`, so the parsed energy and `return_energy` are 0, not -0.001234. -/
theorem C3_counterexample :
    getReturnEnergy (runJson c3job
      ⟨c3stdout "   MP2D dispersion correction Eh   0   0   0   -0.001234", none⟩) =
      some (QCVar.scalar ⟨0, 0⟩) ∧
    getReturnResult (runJson c3job
      ⟨c3stdout "   MP2D dispersion correction Eh   0   0   0   -0.001234", none⟩) =
      some (QCVar.scalar ⟨0, 0⟩) ∧
    decVal ⟨0, 0⟩ ≠ decVal ⟨-1234, 6⟩ :=
  ⟨rfl, rfl, by norm_num [decVal]⟩
